import Mathlib

set_option linter.unreachableTactic false
set_option linter.unusedTactic false
set_option linter.unnecessarySeqFocus false

/-!
# Verification of the MAGERIT risk service (seguridadBack)

Shallow embedding of `RiskService` (src/services/risk.service.ts) and the
`Risk` mongoose model. JavaScript numbers are modelled as exact rationals
(`ℚ`); dates are epoch milliseconds (`ℤ`); the MongoDB collections are
association lists inside an explicit `World` state. Mongoose runs the Risk
schema's field validators (`valorRiesgo` min 0, `probabilidad` and
`impacto` in [0,10], src/models/Risk.ts) on `save()`, so the upsert's save
step is modelled as a validation check that can fail with a
`ValidationError`; a throw leaves the stored state unchanged.
-/

namespace SeguridadBack

/-- The five MAGERIT valuation dimensions of an asset (`asset.valoracion`). -/
structure Valoracion where
  confidencialidad : ℚ
  integridad : ℚ
  disponibilidad : ℚ
  autenticidad : ℚ
  trazabilidad : ℚ
deriving DecidableEq, Repr

/-- The part of an `Asset` document that the risk calculator reads. -/
structure AssetDoc where
  valoracion : Valoracion
  valorEconomico : ℚ
deriving DecidableEq, Repr

/-- The part of a `Threat` document that the risk calculator reads:
`probabilidad` and `fechaDescubrimiento` (epoch milliseconds). -/
structure ThreatDoc where
  probabilidad : ℚ
  fechaDescubrimiento : ℤ
deriving DecidableEq, Repr

/-- The part of a `Vulnerability` document that the risk calculator reads. -/
structure VulnerabilityDoc where
  facilidadExplotacion : ℚ
deriving DecidableEq, Repr

/-- The enum `NivelRiesgo` from src/types. -/
inductive NivelRiesgo where
  | critico
  | alto
  | medio
  | bajo
  | muyBajo
deriving DecidableEq, Repr

/-- The `CalculosRiesgo` breakdown returned by `calculateRisk`. -/
structure CalculosRiesgo where
  riesgoInherente : ℚ
  probabilidadAjustada : ℚ
  impactoCalculado : ℚ
  exposicion : ℚ
  factorTemporal : ℚ
deriving DecidableEq, Repr

/-- A stored `Risk` document (src/models/Risk.ts). `id` models Mongo `_id`;
`activo`/`amenaza`/`vulnerabilidad` are the references of the triple. -/
structure RiskRecord where
  id : ℕ
  activo : ℕ
  amenaza : ℕ
  vulnerabilidad : Option ℕ
  calculos : CalculosRiesgo
  valorRiesgo : ℚ
  nivelRiesgo : NivelRiesgo
  probabilidad : ℚ
  impacto : ℚ
  fechaCalculo : ℤ
  vigente : Bool
deriving DecidableEq, Repr

/-- The `AppError` thrown by the service (`middleware/errorHandler`). -/
structure AppError where
  message : String
  statusCode : ℕ
deriving DecidableEq, Repr

/-- An error escaping `createOrUpdateRisk`: a propagated `AppError` (the
404s of `calculateRisk` and the re-lookup) or the mongoose
`ValidationError` thrown by `save()` when a computed field violates the
Risk schema bounds. -/
inductive UpsertError where
  | app (e : AppError)
  | validation
deriving DecidableEq, Repr

/-- Explicit state: the three reference collections, the `Risk` collection,
the ambient clock read by `new Date()` (epoch ms), and the next fresh Mongo
id for inserts. -/
structure World where
  assets : List (ℕ × AssetDoc)
  threats : List (ℕ × ThreatDoc)
  vulns : List (ℕ × VulnerabilityDoc)
  risks : List RiskRecord
  now : ℤ
  nextRiskId : ℕ
deriving DecidableEq, Repr

namespace RiskService

/-- `calculateTemporalFactor` applied to an age already measured in whole
days (the value of `daysSinceDiscovery` after `Math.floor`). -/
def temporalDecay (days : ℤ) : ℚ :=
  if days ≤ 30 then 1/2 + (days : ℚ) / 60
  else if days ≤ 90 then 1
  else max (4/5) (1 - ((days : ℚ) - 90) / 365)

/-- `RiskService.calculateTemporalFactor`: reads the ambient clock `now`,
computes `daysSinceDiscovery = Math.floor((now - fecha) / 86400000)` (floor
division) and applies the decay curve. -/
def calculateTemporalFactor (now fechaDescubrimiento : ℤ) : ℚ :=
  temporalDecay (Int.fdiv (now - fechaDescubrimiento) 86400000)

/-- `RiskService.determineRiskLevel`. -/
def determineRiskLevel (riesgoCalculado : ℚ) : NivelRiesgo :=
  if riesgoCalculado ≥ 80 then .critico
  else if riesgoCalculado ≥ 60 then .alto
  else if riesgoCalculado ≥ 40 then .medio
  else if riesgoCalculado ≥ 20 then .bajo
  else .muyBajo

/-- `RiskService.calculateVaR`. -/
def calculateVaR (asset : AssetDoc) (probabilidad impacto : ℚ) : ℚ :=
  asset.valorEconomico * (probabilidad / 10) * (impacto / 10)

/-- `RiskService.calculateRisk(assetId, threatId, vulnerabilityId?)`.
The three `findById` lookups, the two `NotFound` (404) checks, and the
MAGERIT arithmetic, exactly as in the source. The ambient clock enters
through `w.now` (the source's `new Date()` inside
`calculateTemporalFactor`). -/
def calculateRisk (w : World) (assetId threatId : ℕ)
    (vulnerabilityId : Option ℕ) : Except AppError CalculosRiesgo :=
  let vulnerability : Option VulnerabilityDoc :=
    match vulnerabilityId with
    | some vid => w.vulns.lookup vid
    | none => none
  match w.assets.lookup assetId with
  | none => .error ⟨"Activo no encontrado", 404⟩
  | some asset =>
    match w.threats.lookup threatId with
    | none => .error ⟨"Amenaza no encontrada", 404⟩
    | some threat =>
      let probabilidadBase := threat.probabilidad
      let impactoMaximo :=
        max (max (max (max asset.valoracion.confidencialidad
          asset.valoracion.integridad) asset.valoracion.disponibilidad)
          asset.valoracion.autenticidad) asset.valoracion.trazabilidad
      let factorVulnerabilidad : ℚ :=
        match vulnerability with
        | some v => v.facilidadExplotacion / 10
        | none => 1/2
      let factorTemporal := calculateTemporalFactor w.now threat.fechaDescubrimiento
      let probabilidadAjustada := probabilidadBase * factorVulnerabilidad * factorTemporal
      let impactoCalculado := impactoMaximo * (asset.valorEconomico / 100000)
      let exposicion := probabilidadAjustada * impactoCalculado
      let riesgoInherente := probabilidadBase * impactoMaximo
      .ok ⟨riesgoInherente, probabilidadAjustada, impactoCalculado, exposicion,
        factorTemporal⟩

/-- Does a stored record match the `findOne` filter
`{activo, amenaza, vulnerabilidad: vulnerabilityId || null}`? -/
def matchesTriple (assetId threatId : ℕ) (vulnerabilityId : Option ℕ)
    (r : RiskRecord) : Bool :=
  r.activo == assetId && r.amenaza == threatId && r.vulnerabilidad == vulnerabilityId

/-- The Risk schema's field validators (src/models/Risk.ts): `valorRiesgo`
has `min: 0`, `probabilidad` and `impacto` have `min: 0, max: 10`; the
remaining validated fields (required flags, the `nivelRiesgo` enum) are
satisfied by construction. Mongoose runs these on every `save()` of the
upsert (they are exactly the paths the upsert modifies). -/
def riskValidates (valorRiesgo probabilidad impacto : ℚ) : Bool :=
  decide (0 ≤ valorRiesgo ∧ 0 ≤ probabilidad ∧ probabilidad ≤ 10 ∧
    0 ≤ impacto ∧ impacto ≤ 10)

/-- `RiskService.createOrUpdateRisk`: recompute, look the triple up with
`findOne` (no `vigente` filter), then overwrite the found document or insert
a new one; the `save()` validates the written fields and throws
`ValidationError` (storing nothing) when they violate the schema bounds.
Returns the new world and the saved record. -/
def createOrUpdateRisk (w : World) (assetId threatId : ℕ)
    (vulnerabilityId : Option ℕ) : Except UpsertError (World × RiskRecord) :=
  match calculateRisk w assetId threatId vulnerabilityId with
  | .error e => .error (.app e)
  | .ok calculos =>
    match w.assets.lookup assetId with
    | none => .error (.app ⟨"Activo no encontrado", 404⟩)
    | some asset =>
      let riesgoFinal := calculos.exposicion
      let nivelRiesgo := determineRiskLevel riesgoFinal
      let valorRiesgo := calculateVaR asset calculos.probabilidadAjustada
        calculos.impactoCalculado
      match w.risks.find? (matchesTriple assetId threatId vulnerabilityId) with
      | some existingRisk =>
        let updated : RiskRecord :=
          { existingRisk with
            calculos := calculos
            valorRiesgo := valorRiesgo
            nivelRiesgo := nivelRiesgo
            probabilidad := calculos.probabilidadAjustada
            impacto := calculos.impactoCalculado
            fechaCalculo := w.now
            vigente := true }
        if riskValidates valorRiesgo calculos.probabilidadAjustada
            calculos.impactoCalculado then
          let newRisks :=
            w.risks.map (fun r => if r.id == existingRisk.id then updated else r)
          .ok ({ w with risks := newRisks }, updated)
        else .error .validation
      | none =>
        let newRisk : RiskRecord :=
          { id := w.nextRiskId
            activo := assetId
            amenaza := threatId
            vulnerabilidad := vulnerabilityId
            calculos := calculos
            valorRiesgo := valorRiesgo
            nivelRiesgo := nivelRiesgo
            probabilidad := calculos.probabilidadAjustada
            impacto := calculos.impactoCalculado
            fechaCalculo := w.now
            vigente := true }
        if riskValidates valorRiesgo calculos.probabilidadAjustada
            calculos.impactoCalculado then
          .ok ({ w with
            risks := w.risks ++ [newRisk]
            nextRiskId := w.nextRiskId + 1 }, newRisk)
        else .error .validation

/-- The vulnerability id the loop passes on: `risk.vulnerabilidad?._id` is
`undefined` when the populated reference no longer exists. -/
def vidAdj (w0 : World) (r : RiskRecord) : Option ℕ :=
  r.vulnerabilidad.bind
    (fun v => if (w0.vulns.lookup v).isSome then some v else none)

/-- Does the upsert of the given triple succeed? This depends only on the
reference collections and the clock: the asset must exist, the calculation
must succeed, and the computed document must pass the schema validators. -/
def upsertOk (w : World) (a t : ℕ) (v : Option ℕ) : Bool :=
  match calculateRisk w a t v, w.assets.lookup a with
  | .ok c, some asset =>
    riskValidates (calculateVaR asset c.probabilidadAjustada c.impactoCalculado)
      c.probabilidadAjustada c.impactoCalculado
  | _, _ => false

/-- One iteration of the `recalculateAllRisks` loop over a pre-fetched
record `r`. `w0` is the world at fetch time: `populate` resolved the three
references against it, so a reference missing in `w0` makes
`risk.activo._id` / `risk.amenaza._id` throw (caught: `errors + 1`), and a
missing vulnerability turns into `undefined` via `?.` (treated as absent).
Otherwise `createOrUpdateRisk` runs on the threaded world; any error it
throws — 404 or `ValidationError` — is caught and counted. -/
def recalcStep (w0 : World) (acc : World × ℕ × ℕ) (r : RiskRecord) :
    World × ℕ × ℕ :=
  if (w0.assets.lookup r.activo).isNone || (w0.threats.lookup r.amenaza).isNone then
    (acc.1, acc.2.1, acc.2.2 + 1)
  else
    match createOrUpdateRisk acc.1 r.activo r.amenaza (vidAdj w0 r) with
    | .ok (w2, _) => (w2, acc.2.1 + 1, acc.2.2)
    | .error _ => (acc.1, acc.2.1, acc.2.2 + 1)

/-- `RiskService.recalculateAllRisks`: fetch the `vigente` records once,
loop with per-record try/catch, return the final world and the counts
`(processed, errors)`. It never throws. -/
def recalculateAllRisks (w : World) : World × ℕ × ℕ :=
  (w.risks.filter (fun r => r.vigente)).foldl (recalcStep w) (w, 0, 0)

/-- Sort by `valorRiesgo` descending (the `.sort(\x7bvalorRiesgo: -1\x7d)`
of the Mongo queries). -/
def sortByValorRiesgo (l : List RiskRecord) : List RiskRecord :=
  l.mergeSort (fun a b => b.valorRiesgo ≤ a.valorRiesgo)

/-- The grouped matrix returned by `getRiskMatrix`. -/
structure RiskMatrix where
  criticos : List RiskRecord
  altos : List RiskRecord
  medios : List RiskRecord
  bajos : List RiskRecord
  muyBajos : List RiskRecord
deriving Repr

/-- `RiskService.getRiskMatrix`: `Risk.find({vigente: true})` sorted by
`valorRiesgo` descending, grouped by `nivelRiesgo`, plus the stats. -/
def getRiskMatrix (w : World) : RiskMatrix × ℕ × ℚ × ℚ :=
  let risks := sortByValorRiesgo (w.risks.filter (fun r => r.vigente))
  let matrix : RiskMatrix :=
    { criticos := risks.filter (fun r => r.nivelRiesgo == .critico)
      altos := risks.filter (fun r => r.nivelRiesgo == .alto)
      medios := risks.filter (fun r => r.nivelRiesgo == .medio)
      bajos := risks.filter (fun r => r.nivelRiesgo == .bajo)
      muyBajos := risks.filter (fun r => r.nivelRiesgo == .muyBajo) }
  let valorTotal := (risks.map (fun r => r.valorRiesgo)).sum
  let promedio : ℚ :=
    if risks.length > 0 then
      (risks.map (fun r => r.probabilidad * r.impacto)).sum / risks.length
    else 0
  (matrix, risks.length, valorTotal, promedio)

/-- `RiskService.getTopRisks(limit = 10)`: active records sorted by
`valorRiesgo` descending, truncated to `limit`. -/
def getTopRisks (w : World) (limit : ℕ := 10) : List RiskRecord :=
  (sortByValorRiesgo (w.risks.filter (fun r => r.vigente))).take limit

/-- `RiskService.deleteRisk`: soft delete. `findById`, 404 when missing,
else set `vigente := false` and save. -/
def deleteRisk (w : World) (id : ℕ) : Except AppError World :=
  match w.risks.find? (fun r => r.id == id) with
  | none => .error ⟨"Riesgo no encontrado", 404⟩
  | some _ =>
    .ok { w with risks :=
      w.risks.map (fun r => if r.id == id then { r with vigente := false } else r) }

/-! ## Derived definitions and concrete example state -/

/-- The exploitation factor determined by the resolved vulnerability. -/
def exploitFactor (v? : Option VulnerabilityDoc) : ℚ :=
  match v? with
  | some v => v.facilidadExplotacion / 10
  | none => 1/2

/-- The maximum of the five valuation dimensions. -/
def impactMax (a : AssetDoc) : ℚ :=
  max (max (max (max a.valoracion.confidencialidad a.valoracion.integridad)
    a.valoracion.disponibilidad) a.valoracion.autenticidad) a.valoracion.trazabilidad

/-- Concrete asset used by the witnesses. -/
def exampleAsset : AssetDoc :=
  { valoracion := ⟨7, 5, 9, 3, 6⟩, valorEconomico := 100000 }

/-- Concrete threat used by the witnesses: probability 6, discovered at
epoch 0. -/
def exampleThreat : ThreatDoc :=
  { probabilidad := 6, fechaDescubrimiento := 0 }

/-- Concrete vulnerability used by the witnesses. -/
def exampleVuln : VulnerabilityDoc := { facilidadExplotacion := 8 }

/-- Concrete world used by the witnesses: one asset (id 1), one threat
(id 2), one vulnerability (id 3), no risks yet, clock at day 40. -/
def exampleWorld : World :=
  { assets := [(1, exampleAsset)]
    threats := [(2, exampleThreat)]
    vulns := [(3, exampleVuln)]
    risks := []
    now := 40 * 86400000
    nextRiskId := 0 }

/-- A world with the same documents as `exampleWorld` but a different risk
store and id counter. -/
def exampleWorldOtherRisks : World :=
  { exampleWorld with nextRiskId := 7 }

/-- A world with exactly the same three document collections as
`exampleWorld` but the ambient clock at the discovery instant. -/
def exampleWorldEarly : World := { exampleWorld with now := 0 }

/-- Number of stored records (active or not) for a given triple. -/
def tripleCount (l : List RiskRecord) (a t : ℕ) (v : Option ℕ) : ℕ :=
  l.countP (matchesTriple a t v)

/-- Modelled Mongo well-formedness: `_id`s are pairwise distinct, below the
fresh-id counter, and (the unique index on `{activo, amenaza,
vulnerabilidad}`) at most one record per triple. -/
def WorldInv (w : World) : Prop :=
  w.risks.Pairwise (fun r s => r.id ≠ s.id) ∧
  (∀ r ∈ w.risks, r.id < w.nextRiskId) ∧
  (∀ a t v, tripleCount w.risks a t v ≤ 1)

/-- The stored record created by the first upsert on `exampleWorld` (see
`createOrUpdateRisk_example` below). -/
def exampleRisk : RiskRecord :=
  { id := 0
    activo := 1
    amenaza := 2
    vulnerabilidad := some 3
    calculos := ⟨54, 24/5, 9, 216/5, 1⟩
    valorRiesgo := 43200
    nivelRiesgo := .medio
    probabilidad := 24/5
    impacto := 9
    fechaCalculo := 40 * 86400000
    vigente := true }

/-- `exampleWorld` after storing `exampleRisk`. -/
def exampleWorld1 : World :=
  { exampleWorld with risks := [exampleRisk], nextRiskId := 1 }

/-- `exampleWorld1` after `deleteRisk` on the stored record. -/
def exampleWorld1Deleted : World :=
  { exampleWorld with
    risks := [{ exampleRisk with vigente := false }]
    nextRiskId := 1 }

/-- A second active record whose asset (id 77) does not exist. -/
def exampleRiskB : RiskRecord := { exampleRisk with id := 1, activo := 77 }

/-- A world with two active records, one of which references a missing
asset. -/
def exampleWorldBatch : World :=
  { exampleWorld with risks := [exampleRisk, exampleRiskB], nextRiskId := 2 }

/-- An asset whose economic value drives `impactoCalculado` to
`9 * 200000 / 100000 = 18`, beyond the schema's `impacto` max of 10. -/
def exampleAssetBig : AssetDoc :=
  { valoracion := ⟨7, 5, 9, 3, 6⟩, valorEconomico := 200000 }

/-- A world whose only asset is too valuable for the Risk schema. -/
def exampleWorldBig : World :=
  { assets := [(1, exampleAssetBig)]
    threats := [(2, exampleThreat)]
    vulns := [(3, exampleVuln)]
    risks := []
    now := 40 * 86400000
    nextRiskId := 0 }

/-- A soft-deleted stored record for the triple `(1, 2, none)`. -/
def exampleRiskBigDel : RiskRecord :=
  { exampleRisk with vulnerabilidad := none, vigente := false }

/-- `exampleWorldBig` holding only the soft-deleted record. -/
def exampleWorldBigDel : World :=
  { exampleWorldBig with risks := [exampleRiskBigDel], nextRiskId := 1 }

/-- `exampleWorldBig` with two active records: one for the too-valuable
asset 1, one referencing the missing asset 77. -/
def exampleWorldBatchBad : World :=
  { exampleWorldBig with
    risks := [{ exampleRisk with vulnerabilidad := none }, exampleRiskB]
    nextRiskId := 2 }

/-! ## Basic facts about the decay curve and the classifier -/

lemma temporalDecay_of_le30 {a : ℤ} (h : a ≤ 30) :
    temporalDecay a = 1/2 + (a : ℚ) / 60 := by
  simp [temporalDecay, h]

lemma temporalDecay_of_mid {a : ℤ} (h1 : 30 < a) (h2 : a ≤ 90) :
    temporalDecay a = 1 := by
  simp [temporalDecay, show ¬ a ≤ 30 by omega, h2]

lemma temporalDecay_of_gt90 {a : ℤ} (h : 90 < a) :
    temporalDecay a = max (4/5) (1 - ((a : ℚ) - 90) / 365) := by
  simp [temporalDecay, show ¬ a ≤ 30 by omega, show ¬ a ≤ 90 by omega]

lemma temporalDecay_bounds {a : ℤ} (ha : 0 ≤ a) :
    1/2 ≤ temporalDecay a ∧ temporalDecay a ≤ 1 := by
  rcases le_or_lt a 30 with h | h
  · rw [temporalDecay_of_le30 h]
    have ha' : (0 : ℚ) ≤ (a : ℚ) := by exact_mod_cast ha
    have h' : (a : ℚ) ≤ 30 := by exact_mod_cast h
    constructor <;> [linarith; linarith]
  · rcases le_or_lt a 90 with h2 | h2
    · rw [temporalDecay_of_mid h h2]; norm_num
    · rw [temporalDecay_of_gt90 h2]
      have h' : (90 : ℚ) < (a : ℚ) := by exact_mod_cast h2
      constructor
      · have : (4/5 : ℚ) ≤ max (4/5) (1 - ((a : ℚ) - 90) / 365) := le_max_left _ _
        linarith
      · apply max_le (by norm_num)
        have : (0 : ℚ) < ((a : ℚ) - 90) / 365 := by
          apply div_pos (by linarith) (by norm_num)
        linarith

/-- C2: for every age in whole days since discovery, `temporalDecay` equals
`0.5 + age/60` for `age ≤ 30`, equals `1.0` for `30 < age ≤ 90`, and equals
`max(0.8, 1.0 - (age-90)/365)` for `age > 90`; it is monotonically
non-decreasing on `[0,30]`, constant at `1.0` on `(30,90]`, monotonically
non-increasing with floor `0.8` beyond `90`, and always satisfies
`0.5 ≤ temporalDecay(age) ≤ 1.0`. -/
theorem temporalDecay_spec (a b : ℤ) (ha : 0 ≤ a) (hab : a ≤ b) :
    (a ≤ 30 → temporalDecay a = 1/2 + (a : ℚ) / 60) ∧
    (30 < a → a ≤ 90 → temporalDecay a = 1) ∧
    (90 < a → temporalDecay a = max (4/5) (1 - ((a : ℚ) - 90) / 365)) ∧
    (b ≤ 30 → temporalDecay a ≤ temporalDecay b) ∧
    (30 < a → b ≤ 90 → temporalDecay a = temporalDecay b) ∧
    (90 < a → temporalDecay b ≤ temporalDecay a) ∧
    (90 < a → 4/5 ≤ temporalDecay a) ∧
    1/2 ≤ temporalDecay a ∧ temporalDecay a ≤ 1 := by
  refine ⟨fun h => temporalDecay_of_le30 h,
    fun h1 h2 => temporalDecay_of_mid h1 h2,
    fun h => temporalDecay_of_gt90 h, ?_, ?_, ?_, ?_,
    (temporalDecay_bounds ha).1, (temporalDecay_bounds ha).2⟩
  · intro hb
    rw [temporalDecay_of_le30 (le_trans hab hb), temporalDecay_of_le30 hb]
    have : (a : ℚ) ≤ (b : ℚ) := by exact_mod_cast hab
    linarith
  · intro h1 h2
    rw [temporalDecay_of_mid h1 (by omega), temporalDecay_of_mid (by omega) h2]
  · intro h1
    rw [temporalDecay_of_gt90 h1, temporalDecay_of_gt90 (by omega)]
    apply max_le_max le_rfl
    have : (a : ℚ) ≤ (b : ℚ) := by exact_mod_cast hab
    have h365 : (0 : ℚ) < 365 := by norm_num
    have := div_le_div_of_nonneg_right (c := (365 : ℚ)) (by linarith : (a : ℚ) - 90 ≤ (b : ℚ) - 90)
    gcongr
  · intro h1
    rw [temporalDecay_of_gt90 h1]
    exact le_max_left _ _

/-- Witness for `temporalDecay_spec` at `a = 100`, `b = 200`. -/
theorem temporalDecay_spec_witness :
    (0 : ℤ) ≤ 100 ∧ (100 : ℤ) ≤ 200 ∧
    (((100 : ℤ) ≤ 30 → temporalDecay 100 = 1/2 + ((100 : ℤ) : ℚ) / 60) ∧
    (30 < (100 : ℤ) → (100 : ℤ) ≤ 90 → temporalDecay 100 = 1) ∧
    (90 < (100 : ℤ) → temporalDecay 100 = max (4/5) (1 - (((100 : ℤ) : ℚ) - 90) / 365)) ∧
    ((200 : ℤ) ≤ 30 → temporalDecay 100 ≤ temporalDecay 200) ∧
    (30 < (100 : ℤ) → (200 : ℤ) ≤ 90 → temporalDecay 100 = temporalDecay 200) ∧
    (90 < (100 : ℤ) → temporalDecay 200 ≤ temporalDecay 100) ∧
    (90 < (100 : ℤ) → 4/5 ≤ temporalDecay 100) ∧
    1/2 ≤ temporalDecay 100 ∧ temporalDecay 100 ≤ 1) :=
  ⟨by decide, by decide, temporalDecay_spec 100 200 (by decide) (by decide)⟩

lemma determineRiskLevel_eq_critico (x : ℚ) :
    determineRiskLevel x = .critico ↔ 80 ≤ x := by
  unfold determineRiskLevel
  split_ifs with h1 h2 h3 h4 <;> simp_all <;> intros <;> linarith

lemma determineRiskLevel_eq_alto (x : ℚ) :
    determineRiskLevel x = .alto ↔ 60 ≤ x ∧ x < 80 := by
  unfold determineRiskLevel
  split_ifs with h1 h2 h3 h4 <;> simp_all <;> intros <;> linarith

lemma determineRiskLevel_eq_medio (x : ℚ) :
    determineRiskLevel x = .medio ↔ 40 ≤ x ∧ x < 60 := by
  unfold determineRiskLevel
  split_ifs with h1 h2 h3 h4 <;> simp_all <;> intros <;> linarith

lemma determineRiskLevel_eq_bajo (x : ℚ) :
    determineRiskLevel x = .bajo ↔ 20 ≤ x ∧ x < 40 := by
  unfold determineRiskLevel
  split_ifs with h1 h2 h3 h4 <;> simp_all <;> intros <;> linarith

lemma determineRiskLevel_eq_muyBajo (x : ℚ) :
    determineRiskLevel x = .muyBajo ↔ x < 20 := by
  unfold determineRiskLevel
  split_ifs with h1 h2 h3 h4 <;> simp_all <;> intros <;> linarith

/-- C3: the classifier returns Critical iff `x ≥ 80`, High iff
`60 ≤ x < 80`, Medium iff `40 ≤ x < 60`, Low iff `20 ≤ x < 40`, VeryLow iff
`x < 20`; in particular `80` is Critical, `79.999` is High and `20` is Low
(boundaries closed on the lower side). -/
theorem determineRiskLevel_spec (x : ℚ) :
    (determineRiskLevel x = .critico ↔ 80 ≤ x) ∧
    (determineRiskLevel x = .alto ↔ 60 ≤ x ∧ x < 80) ∧
    (determineRiskLevel x = .medio ↔ 40 ≤ x ∧ x < 60) ∧
    (determineRiskLevel x = .bajo ↔ 20 ≤ x ∧ x < 40) ∧
    (determineRiskLevel x = .muyBajo ↔ x < 20) ∧
    determineRiskLevel 80 = .critico ∧
    determineRiskLevel (79999/1000) = .alto ∧
    determineRiskLevel 20 = .bajo := by
  refine ⟨determineRiskLevel_eq_critico x, determineRiskLevel_eq_alto x,
    determineRiskLevel_eq_medio x, determineRiskLevel_eq_bajo x,
    determineRiskLevel_eq_muyBajo x, ?_, ?_, ?_⟩
  · exact (determineRiskLevel_eq_critico 80).2 (by norm_num)
  · exact (determineRiskLevel_eq_alto (79999/1000)).2 (by norm_num)
  · exact (determineRiskLevel_eq_bajo 20).2 (by norm_num)

/-! ## The calculator -/

/-- Helper: closed-form evaluation of `calculateRisk` when the asset and
threat exist and the optional vulnerability resolves to `v?`. -/
lemma calculateRisk_eval (w : World) (assetId threatId : ℕ)
    (vulnerabilityId : Option ℕ) (asset : AssetDoc) (threat : ThreatDoc)
    (v? : Option VulnerabilityDoc)
    (ha : w.assets.lookup assetId = some asset)
    (ht : w.threats.lookup threatId = some threat)
    (hv : (match vulnerabilityId with
           | some vid => w.vulns.lookup vid
           | none => none) = v?) :
    calculateRisk w assetId threatId vulnerabilityId =
      .ok { riesgoInherente := threat.probabilidad * impactMax asset
            probabilidadAjustada := threat.probabilidad * exploitFactor v? *
              calculateTemporalFactor w.now threat.fechaDescubrimiento
            impactoCalculado := impactMax asset * (asset.valorEconomico / 100000)
            exposicion := (threat.probabilidad * exploitFactor v? *
              calculateTemporalFactor w.now threat.fechaDescubrimiento) *
              (impactMax asset * (asset.valorEconomico / 100000))
            factorTemporal := calculateTemporalFactor w.now threat.fechaDescubrimiento } := by
  simp only [calculateRisk, ha, ht, hv, exploitFactor, impactMax]

/-- C1: when the asset and the threat exist (and the optional vulnerability
resolves to `v?`), `calculateRisk` succeeds and its `CalculosRiesgo` fields
satisfy exactly: `impactMax` is the max of the five valuation dimensions,
`exploitFactor` is `exploitability/10` for a vulnerability and `0.5`
otherwise, `adjustedProbability = probability * exploitFactor *
temporalFactor`, `computedImpact = impactMax * (economicValue / 100000)`,
`exposure = adjustedProbability * computedImpact`, and
`inherentRisk = probability * impactMax`. -/
theorem calculateRisk_spec (w : World) (assetId threatId : ℕ)
    (vulnerabilityId : Option ℕ) (asset : AssetDoc) (threat : ThreatDoc)
    (v? : Option VulnerabilityDoc)
    (ha : w.assets.lookup assetId = some asset)
    (ht : w.threats.lookup threatId = some threat)
    (hv : (match vulnerabilityId with
           | some vid => w.vulns.lookup vid
           | none => none) = v?) :
    calculateRisk w assetId threatId vulnerabilityId =
      .ok { riesgoInherente := threat.probabilidad * impactMax asset
            probabilidadAjustada := threat.probabilidad * exploitFactor v? *
              calculateTemporalFactor w.now threat.fechaDescubrimiento
            impactoCalculado := impactMax asset * (asset.valorEconomico / 100000)
            exposicion := (threat.probabilidad * exploitFactor v? *
              calculateTemporalFactor w.now threat.fechaDescubrimiento) *
              (impactMax asset * (asset.valorEconomico / 100000))
            factorTemporal := calculateTemporalFactor w.now threat.fechaDescubrimiento } :=
  calculateRisk_eval w assetId threatId vulnerabilityId asset threat v? ha ht hv

/-- Witness for `calculateRisk_spec` on `exampleWorld`. -/
theorem calculateRisk_spec_witness :
    exampleWorld.assets.lookup 1 = some exampleAsset ∧
    exampleWorld.threats.lookup 2 = some exampleThreat ∧
    (match some 3 with
     | some vid => exampleWorld.vulns.lookup vid
     | none => none) = some exampleVuln ∧
    calculateRisk exampleWorld 1 2 (some 3) =
      .ok { riesgoInherente := exampleThreat.probabilidad * impactMax exampleAsset
            probabilidadAjustada := exampleThreat.probabilidad *
              exploitFactor (some exampleVuln) *
              calculateTemporalFactor exampleWorld.now exampleThreat.fechaDescubrimiento
            impactoCalculado := impactMax exampleAsset *
              (exampleAsset.valorEconomico / 100000)
            exposicion := (exampleThreat.probabilidad *
              exploitFactor (some exampleVuln) *
              calculateTemporalFactor exampleWorld.now exampleThreat.fechaDescubrimiento) *
              (impactMax exampleAsset * (exampleAsset.valorEconomico / 100000))
            factorTemporal :=
              calculateTemporalFactor exampleWorld.now exampleThreat.fechaDescubrimiento } :=
  ⟨rfl, rfl, rfl,
    calculateRisk_spec exampleWorld 1 2 (some 3) exampleAsset exampleThreat
      (some exampleVuln) rfl rfl rfl⟩

/-- Sanity evaluation on `exampleWorld`: impact 9, exploit factor 4/5,
temporal factor 1 at day 40. -/
theorem calculateRisk_example_eval :
    calculateRisk exampleWorld 1 2 (some 3) =
      .ok { riesgoInherente := 54
            probabilidadAjustada := 24/5
            impactoCalculado := 9
            exposicion := 216/5
            factorTemporal := 1 } := by
  rw [calculateRisk_eval exampleWorld 1 2 (some 3) exampleAsset exampleThreat
    (some exampleVuln) rfl rfl rfl]
  have ht : calculateTemporalFactor exampleWorld.now exampleThreat.fechaDescubrimiento = 1 := by
    have : Int.fdiv (exampleWorld.now - exampleThreat.fechaDescubrimiento) 86400000 = 40 := by
      decide
    rw [calculateTemporalFactor, this, temporalDecay_of_mid (by omega) (by omega)]
  rw [ht]
  have hm : impactMax exampleAsset = 9 := by
    rw [impactMax]
    norm_num [exampleAsset]
  rw [hm]
  norm_num [exampleAsset, exampleThreat, exploitFactor, exampleVuln]

/-! ## Error handling and determinism of the calculator -/

lemma calculateRisk_asset_missing {w : World} {assetId threatId : ℕ}
    {vulnerabilityId : Option ℕ} (ha : w.assets.lookup assetId = none) :
    calculateRisk w assetId threatId vulnerabilityId =
      .error ⟨"Activo no encontrado", 404⟩ := by
  simp [calculateRisk, ha]

lemma calculateRisk_threat_missing {w : World} {assetId threatId : ℕ}
    {vulnerabilityId : Option ℕ} {asset : AssetDoc}
    (ha : w.assets.lookup assetId = some asset)
    (ht : w.threats.lookup threatId = none) :
    calculateRisk w assetId threatId vulnerabilityId =
      .error ⟨"Amenaza no encontrada", 404⟩ := by
  simp [calculateRisk, ha, ht]

/-- C7: `calculateRisk` fails with 404 (`NotFound`) when the asset is
missing, fails with 404 when the threat is missing, and does not fail when
no vulnerability is given: the exploitation factor then defaults to `0.5`,
so `probabilidadAjustada = probability * 0.5 * temporalFactor`. -/
theorem calculateRisk_notFound_spec (w : World) (assetId threatId : ℕ)
    (vulnerabilityId : Option ℕ) :
    (w.assets.lookup assetId = none →
      calculateRisk w assetId threatId vulnerabilityId =
        .error ⟨"Activo no encontrado", 404⟩) ∧
    (∀ asset, w.assets.lookup assetId = some asset →
      w.threats.lookup threatId = none →
      calculateRisk w assetId threatId vulnerabilityId =
        .error ⟨"Amenaza no encontrada", 404⟩) ∧
    (∀ asset threat, w.assets.lookup assetId = some asset →
      w.threats.lookup threatId = some threat →
      ∃ c, calculateRisk w assetId threatId none = .ok c ∧
        c.probabilidadAjustada = threat.probabilidad * (1/2) *
          calculateTemporalFactor w.now threat.fechaDescubrimiento) := by
  refine ⟨fun ha => calculateRisk_asset_missing ha,
    fun asset ha ht => calculateRisk_threat_missing ha ht,
    fun asset threat ha ht => ⟨_, calculateRisk_eval w assetId threatId none
      asset threat none ha ht rfl, ?_⟩⟩
  simp [exploitFactor]

/-- Witness for `calculateRisk_notFound_spec`: on `exampleWorld`, id 99 is
a missing asset / threat, and the vulnerability-free call succeeds. -/
theorem calculateRisk_notFound_spec_witness :
    calculateRisk exampleWorld 99 2 none = .error ⟨"Activo no encontrado", 404⟩ ∧
    calculateRisk exampleWorld 1 99 none = .error ⟨"Amenaza no encontrada", 404⟩ ∧
    (∃ c, calculateRisk exampleWorld 1 2 none = .ok c ∧
      c.probabilidadAjustada = exampleThreat.probabilidad * (1/2) *
        calculateTemporalFactor exampleWorld.now exampleThreat.fechaDescubrimiento) :=
  ⟨(calculateRisk_notFound_spec exampleWorld 99 2 none).1 rfl,
   (calculateRisk_notFound_spec exampleWorld 1 99 none).2.1 exampleAsset rfl rfl,
   (calculateRisk_notFound_spec exampleWorld 1 2 none).2.2 exampleAsset
     exampleThreat rfl rfl⟩

/-- Helper: `calculateRisk` reads only the three reference collections and
the clock; it is independent of the `risks` store and of `nextRiskId`. -/
lemma calculateRisk_congr {w1 w2 : World} (assetId threatId : ℕ)
    (vulnerabilityId : Option ℕ) (ha : w1.assets = w2.assets)
    (ht : w1.threats = w2.threats) (hv : w1.vulns = w2.vulns)
    (hn : w1.now = w2.now) :
    calculateRisk w1 assetId threatId vulnerabilityId =
      calculateRisk w2 assetId threatId vulnerabilityId := by
  simp only [calculateRisk, ha, ht, hv, hn]

/-- C9 (amended): with the ambient clock fixed, `calculateRisk` is pure:
any two invocations that agree on the asset, threat and vulnerability
collections and on `now` produce identical `CalculosRiesgo` results, no
matter how the rest of the state differs. (The source does NOT take `now`
as a parameter: it reads the ambient clock.) -/
theorem calculateRisk_pure (w1 w2 : World) (assetId threatId : ℕ)
    (vulnerabilityId : Option ℕ) (ha : w1.assets = w2.assets)
    (ht : w1.threats = w2.threats) (hv : w1.vulns = w2.vulns)
    (hn : w1.now = w2.now) :
    calculateRisk w1 assetId threatId vulnerabilityId =
      calculateRisk w2 assetId threatId vulnerabilityId :=
  calculateRisk_congr assetId threatId vulnerabilityId ha ht hv hn

/-- Witness for `calculateRisk_pure`: `exampleWorld` versus a world that
differs in `nextRiskId` only. -/
theorem calculateRisk_pure_witness :
    exampleWorld.assets = exampleWorldOtherRisks.assets ∧
    exampleWorld.threats = exampleWorldOtherRisks.threats ∧
    exampleWorld.vulns = exampleWorldOtherRisks.vulns ∧
    exampleWorld.now = exampleWorldOtherRisks.now ∧
    calculateRisk exampleWorld 1 2 (some 3) =
      calculateRisk exampleWorldOtherRisks 1 2 (some 3) :=
  ⟨rfl, rfl, rfl, rfl,
    calculateRisk_pure exampleWorld exampleWorldOtherRisks 1 2 (some 3)
      rfl rfl rfl rfl⟩

/-- C9 (counterexample): `now` is not an input of the source
`calculateRisk(assetId, threatId, vulnerabilityId?)` — it is read from the
ambient clock. Two states agreeing on every declared input (same asset,
threat and vulnerability collections) give different results, so the
claimed signature `calculateRisk(assetId, threatId, vulnerabilityId?,
now=currentTime)` with injectable purity fails on the code. -/
theorem calculateRisk_now_counterexample :
    exampleWorld.assets = exampleWorldEarly.assets ∧
    exampleWorld.threats = exampleWorldEarly.threats ∧
    exampleWorld.vulns = exampleWorldEarly.vulns ∧
    calculateRisk exampleWorld 1 2 none ≠ calculateRisk exampleWorldEarly 1 2 none := by
  refine ⟨rfl, rfl, rfl, ?_⟩
  rw [calculateRisk_eval exampleWorld 1 2 none exampleAsset exampleThreat none
    rfl rfl rfl,
    calculateRisk_eval exampleWorldEarly 1 2 none exampleAsset exampleThreat none
    rfl rfl rfl]
  have h1 : calculateTemporalFactor exampleWorld.now exampleThreat.fechaDescubrimiento = 1 := by
    have hd : Int.fdiv (exampleWorld.now - exampleThreat.fechaDescubrimiento) 86400000 = 40 := by
      decide
    rw [calculateTemporalFactor, hd, temporalDecay_of_mid (by omega) (by omega)]
  have h2 : calculateTemporalFactor exampleWorldEarly.now exampleThreat.fechaDescubrimiento = 1/2 := by
    have hd : Int.fdiv (exampleWorldEarly.now - exampleThreat.fechaDescubrimiento) 86400000 = 0 := by
      decide
    rw [calculateTemporalFactor, hd, temporalDecay_of_le30 (by omega)]
    norm_num
  rw [h1, h2]
  simp only [ne_eq, Except.ok.injEq, CalculosRiesgo.mk.injEq, not_and]
  intro _ h _ _
  absurd h
  norm_num [exampleThreat, exploitFactor]

/-! ## Characterizing `createOrUpdateRisk` -/

lemma createOrUpdateRisk_cases {w : World} {a t : ℕ} {v : Option ℕ}
    {w' : World} {rec : RiskRecord}
    (h : createOrUpdateRisk w a t v = .ok (w', rec)) :
    ∃ asset c, w.assets.lookup a = some asset ∧
      calculateRisk w a t v = .ok c ∧
      rec.calculos = c ∧
      rec.valorRiesgo = calculateVaR asset c.probabilidadAjustada c.impactoCalculado ∧
      rec.nivelRiesgo = determineRiskLevel c.exposicion ∧
      rec.probabilidad = c.probabilidadAjustada ∧
      rec.impacto = c.impactoCalculado ∧
      rec.fechaCalculo = w.now ∧
      rec.vigente = true ∧
      riskValidates (calculateVaR asset c.probabilidadAjustada c.impactoCalculado)
        c.probabilidadAjustada c.impactoCalculado = true ∧
      w'.assets = w.assets ∧ w'.threats = w.threats ∧ w'.vulns = w.vulns ∧
      w'.now = w.now ∧
      ((∃ er, w.risks.find? (matchesTriple a t v) = some er ∧
          rec.id = er.id ∧ rec.activo = er.activo ∧ rec.amenaza = er.amenaza ∧
          rec.vulnerabilidad = er.vulnerabilidad ∧
          w'.risks = w.risks.map (fun r => if r.id == er.id then rec else r) ∧
          w'.nextRiskId = w.nextRiskId) ∨
       (w.risks.find? (matchesTriple a t v) = none ∧
          rec.id = w.nextRiskId ∧ rec.activo = a ∧ rec.amenaza = t ∧
          rec.vulnerabilidad = v ∧
          w'.risks = w.risks ++ [rec] ∧ w'.nextRiskId = w.nextRiskId + 1)) := by
  unfold createOrUpdateRisk at h
  cases hcalc : calculateRisk w a t v with
  | error e => rw [hcalc] at h; exact absurd h (by simp)
  | ok c =>
    rw [hcalc] at h
    cases hasset : w.assets.lookup a with
    | none => rw [hasset] at h; exact absurd h (by simp)
    | some asset =>
      rw [hasset] at h
      cases hfind : w.risks.find? (matchesTriple a t v) with
      | some er =>
        rw [hfind] at h
        dsimp only [] at h
        split at h
        next hval =>
          simp only [Except.ok.injEq, Prod.mk.injEq] at h
          obtain ⟨hw, hrec⟩ := h
          subst hw hrec
          exact ⟨asset, c, rfl, rfl, rfl, rfl, rfl, rfl, rfl, rfl, rfl, hval,
            rfl, rfl, rfl, rfl,
            Or.inl ⟨er, rfl, rfl, rfl, rfl, rfl, rfl, rfl⟩⟩
        next hval => exact absurd h (by simp)
      | none =>
        rw [hfind] at h
        dsimp only [] at h
        split at h
        next hval =>
          simp only [Except.ok.injEq, Prod.mk.injEq] at h
          obtain ⟨hw, hrec⟩ := h
          subst hw hrec
          exact ⟨asset, c, rfl, rfl, rfl, rfl, rfl, rfl, rfl, rfl, rfl, hval,
            rfl, rfl, rfl, rfl,
            Or.inr ⟨rfl, rfl, rfl, rfl, rfl, rfl, rfl⟩⟩
        next hval => exact absurd h (by simp)

/-- Helper: `createOrUpdateRisk` succeeds whenever the asset exists, the
calculation succeeds, and the computed document passes the schema
validators. -/
lemma createOrUpdateRisk_ok_of {w : World} {a t : ℕ} {v : Option ℕ}
    {asset : AssetDoc} {c : CalculosRiesgo}
    (ha : w.assets.lookup a = some asset)
    (hc : calculateRisk w a t v = .ok c)
    (hval : riskValidates (calculateVaR asset c.probabilidadAjustada
      c.impactoCalculado) c.probabilidadAjustada c.impactoCalculado = true) :
    ∃ w' rec, createOrUpdateRisk w a t v = .ok (w', rec) := by
  unfold createOrUpdateRisk
  rw [hc, ha]
  cases hfind : w.risks.find? (matchesTriple a t v) <;> simp [hval]

/-- Helper: `save()` throws the mongoose `ValidationError` — and stores
nothing — whenever the computed document violates the schema bounds. -/
lemma createOrUpdateRisk_validation_error {w : World} {a t : ℕ}
    {v : Option ℕ} {asset : AssetDoc} {c : CalculosRiesgo}
    (ha : w.assets.lookup a = some asset)
    (hc : calculateRisk w a t v = .ok c)
    (hval : riskValidates (calculateVaR asset c.probabilidadAjustada
      c.impactoCalculado) c.probabilidadAjustada c.impactoCalculado = false) :
    createOrUpdateRisk w a t v = .error .validation := by
  unfold createOrUpdateRisk
  rw [hc, ha]
  cases hfind : w.risks.find? (matchesTriple a t v) <;> simp [hval]

/-- Helper: closed-form calculation on the big-asset world (no
vulnerability, exploit factor 1/2, day 40): the computed impact is
`9 * 200000/100000 = 18`. -/
lemma calculateRisk_big_eval :
    calculateRisk exampleWorldBig 1 2 none =
      .ok { riesgoInherente := 54
            probabilidadAjustada := 3
            impactoCalculado := 18
            exposicion := 54
            factorTemporal := 1 } := by
  rw [calculateRisk_eval exampleWorldBig 1 2 none exampleAssetBig exampleThreat
    none rfl rfl rfl]
  have ht : calculateTemporalFactor exampleWorldBig.now
      exampleThreat.fechaDescubrimiento = 1 := by
    have hd : Int.fdiv (exampleWorldBig.now - exampleThreat.fechaDescubrimiento)
        86400000 = 40 := by decide
    rw [calculateTemporalFactor, hd, temporalDecay_of_mid (by omega) (by omega)]
  rw [ht]
  have hm : impactMax exampleAssetBig = 9 := by
    rw [impactMax]
    norm_num [exampleAssetBig]
  rw [hm]
  norm_num [exampleAssetBig, exampleThreat, exploitFactor]

/-- Helper: the big-asset computation fails the schema's `impacto ≤ 10`. -/
lemma bigValidates_false :
    riskValidates (calculateVaR exampleAssetBig 3 18) 3 18 = false := by
  simp only [riskValidates, decide_eq_false_iff_not]
  rintro ⟨-, -, -, -, hcontra⟩
  norm_num at hcontra

/-- Helper: the small-asset computation passes the schema validators. -/
lemma exampleValidates :
    riskValidates (calculateVaR exampleAsset (24/5) 9) (24/5) 9 = true := by
  simp only [riskValidates, decide_eq_true_eq]
  norm_num [calculateVaR, exampleAsset]

/-- C6 (counterexample): the claim's universal storage fails — for the
existing asset 1 (economic value 200000) and existing threat 2,
`createOrUpdateRisk` throws the mongoose `ValidationError`
(`impacto = 18 > 10`) instead of storing a record. -/
theorem createOrUpdateRisk_validation_counterexample :
    exampleWorldBig.assets.lookup 1 = some exampleAssetBig ∧
    exampleWorldBig.threats.lookup 2 = some exampleThreat ∧
    createOrUpdateRisk exampleWorldBig 1 2 none = .error .validation :=
  ⟨rfl, rfl,
    createOrUpdateRisk_validation_error rfl calculateRisk_big_eval
      bigValidates_false⟩

/-- C6 (amended): for every existing asset and threat (and optional
vulnerability) whose computed document passes the Risk schema's bounds
(`0 ≤ valorRiesgo`, `probabilidadAjustada ∈ [0,10]`,
`impactoCalculado ∈ [0,10]`), `createOrUpdateRisk` stores `nivelRiesgo` as
the classification of the computed `exposicion` and stores `valorRiesgo`
as the monetary VaR figure
`valorEconomico * (probabilidadAjustada/10) * (impactoCalculado/10)`;
when the bounds are violated, `save()` throws `ValidationError` and stores
nothing. -/
theorem createOrUpdateRisk_values_spec (w : World) (a t : ℕ) (v : Option ℕ)
    (asset : AssetDoc) (c : CalculosRiesgo)
    (ha : w.assets.lookup a = some asset)
    (hc : calculateRisk w a t v = .ok c)
    (hval : riskValidates (calculateVaR asset c.probabilidadAjustada
      c.impactoCalculado) c.probabilidadAjustada c.impactoCalculado = true) :
    ∃ w' rec, createOrUpdateRisk w a t v = .ok (w', rec) ∧
      rec.nivelRiesgo = determineRiskLevel c.exposicion ∧
      rec.valorRiesgo = asset.valorEconomico * (c.probabilidadAjustada / 10) *
        (c.impactoCalculado / 10) := by
  obtain ⟨w', rec, hup⟩ := createOrUpdateRisk_ok_of ha hc hval
  obtain ⟨asset', c', ha', hc', -, hvr, hnl, -⟩ := createOrUpdateRisk_cases hup
  rw [ha] at ha'
  rw [hc] at hc'
  obtain rfl : asset' = asset := by
    injection ha' with h
    exact h.symm
  obtain rfl : c' = c := by
    injection hc' with h
    exact h.symm
  exact ⟨w', rec, hup, hnl, hvr⟩

/-- Witness for `createOrUpdateRisk_values_spec` on `exampleWorld`
(schema-valid: `impacto = 9`, `probabilidad = 4.8`, `VaR = 43200`). -/
theorem createOrUpdateRisk_values_spec_witness :
    riskValidates (calculateVaR exampleAsset (24/5) 9) (24/5) 9 = true ∧
    ∃ w' rec, createOrUpdateRisk exampleWorld 1 2 (some 3) = .ok (w', rec) ∧
      rec.nivelRiesgo = determineRiskLevel ((216 : ℚ)/5) ∧
      rec.valorRiesgo = exampleAsset.valorEconomico * (((24 : ℚ)/5) / 10) *
        (((9 : ℚ)) / 10) :=
  ⟨exampleValidates,
    createOrUpdateRisk_values_spec exampleWorld 1 2 (some 3) exampleAsset
      ⟨54, 24/5, 9, 216/5, 1⟩ rfl calculateRisk_example_eval exampleValidates⟩

/-! ## Uniqueness invariants -/

lemma countP_congr_of_mem {α : Type} {l : List α} {p q : α → Bool}
    (h : ∀ a ∈ l, p a = q a) : l.countP p = l.countP q := by
  induction l with
  | nil => rfl
  | cons x xs ih =>
    rw [List.countP_cons, List.countP_cons, h x (by simp),
      ih (fun a ha => h a (by simp [ha]))]

lemma eq_of_mem_of_pairwise_ne_id {l : List RiskRecord}
    (hp : l.Pairwise (fun r s => r.id ≠ s.id)) {r s : RiskRecord}
    (hr : r ∈ l) (hs : s ∈ l) (hid : r.id = s.id) : r = s := by
  induction l with
  | nil => cases hr
  | cons x xs ih =>
    rcases List.mem_cons.1 hr with rfl | hr'
    · rcases List.mem_cons.1 hs with rfl | hs'
      · rfl
      · exact absurd hid ((List.pairwise_cons.1 hp).1 s hs')
    · rcases List.mem_cons.1 hs with rfl | hs'
      · exact absurd hid.symm ((List.pairwise_cons.1 hp).1 r hr')
      · exact ih (List.pairwise_cons.1 hp).2 hr' hs'

lemma update_id_eq {er rec : RiskRecord} (hid : rec.id = er.id)
    (r : RiskRecord) : (if r.id == er.id then rec else r).id = r.id := by
  by_cases h : r.id == er.id
  · rw [if_pos h, hid]
    exact (eq_of_beq h).symm
  · rw [if_neg h]

/-- The record returned by a successful `createOrUpdateRisk` is stored and
carries the requested triple. -/
lemma createOrUpdateRisk_rec_mem {w : World} {a t : ℕ} {v : Option ℕ}
    {w' : World} {rec : RiskRecord}
    (h : createOrUpdateRisk w a t v = .ok (w', rec)) :
    rec ∈ w'.risks ∧ matchesTriple a t v rec = true := by
  obtain ⟨asset, c, ha, hc, hcal, hvr, hnl, hp, hi, hf, hvig, hvalid, hassets,
    hthreats, hvulns, hnow, hdisj⟩ := createOrUpdateRisk_cases h
  rcases hdisj with ⟨er, hfind, hid, hact, hame, hvul, hrisks, -⟩ |
    ⟨hfind, hid, hact, hame, hvul, hrisks, -⟩
  · constructor
    · rw [hrisks]
      refine List.mem_map.2 ⟨er, List.mem_of_find?_eq_some hfind, ?_⟩
      simp
    · have hper := List.find?_some hfind
      unfold matchesTriple at hper ⊢
      rw [hact, hame, hvul]
      exact hper
  · constructor
    · rw [hrisks]
      exact List.mem_append.2 (Or.inr (by simp))
    · unfold matchesTriple
      rw [hact, hame, hvul]
      simp

/-- `createOrUpdateRisk` preserves the well-formedness invariant; in
particular it never creates a second record for an already-present triple. -/
lemma createOrUpdateRisk_preserves_inv {w : World} {a t : ℕ} {v : Option ℕ}
    {w' : World} {rec : RiskRecord} (hinv : WorldInv w)
    (h : createOrUpdateRisk w a t v = .ok (w', rec)) : WorldInv w' := by
  obtain ⟨hp, hb, hcnt⟩ := hinv
  obtain ⟨asset, c, ha, hc, hcal, hvr, hnl, hpr, hi, hf, hvig, hvalid, hassets,
    hthreats, hvulns, hnow, hdisj⟩ := createOrUpdateRisk_cases h
  rcases hdisj with ⟨er, hfind, hid, hact, hame, hvul, hrisks, hnext⟩ |
    ⟨hfind, hid, hact, hame, hvul, hrisks, hnext⟩
  · have hmem_er : er ∈ w.risks := List.mem_of_find?_eq_some hfind
    have hids : ∀ r : RiskRecord, (if r.id == er.id then rec else r).id = r.id :=
      update_id_eq hid
    refine ⟨?_, ?_, ?_⟩
    · rw [hrisks, List.pairwise_map]
      exact hp.imp (fun {x y} hne => by rw [hids x, hids y]; exact hne)
    · intro r hr
      rw [hrisks] at hr
      obtain ⟨x, hx, rfl⟩ := List.mem_map.1 hr
      rw [hnext, hids x]
      exact hb x hx
    · intro a' t' v'
      unfold tripleCount
      rw [hrisks, List.countP_map]
      have hcong : ∀ r ∈ w.risks,
          (matchesTriple a' t' v' ∘ fun r => if r.id == er.id then rec else r) r =
            matchesTriple a' t' v' r := by
        intro r hr
        simp only [Function.comp_apply]
        by_cases hcase : r.id == er.id
        · have hre : r = er := eq_of_mem_of_pairwise_ne_id hp hr hmem_er (eq_of_beq hcase)
          rw [if_pos hcase, hre]
          unfold matchesTriple
          rw [hact, hame, hvul]
        · rw [if_neg hcase]
      rw [countP_congr_of_mem hcong]
      exact hcnt a' t' v'
  · refine ⟨?_, ?_, ?_⟩
    · rw [hrisks, List.pairwise_append]
      refine ⟨hp, List.pairwise_singleton _ _, ?_⟩
      intro x hx y hy
      rw [List.mem_singleton.1 hy, hid]
      exact Nat.ne_of_lt (hb x hx)
    · intro r hr
      rw [hrisks] at hr
      rw [hnext]
      rcases List.mem_append.1 hr with hr' | hr'
      · exact Nat.lt_succ_of_lt (hb r hr')
      · rw [List.mem_singleton.1 hr', hid]
        exact Nat.lt_succ_self _
    · intro a' t' v'
      unfold tripleCount
      rw [hrisks, List.countP_append]
      by_cases hmt : matchesTriple a' t' v' rec
      · have h3 : a = a' ∧ t = t' ∧ v = v' := by
          unfold matchesTriple at hmt
          rw [hact, hame, hvul] at hmt
          simp only [Bool.and_eq_true, beq_iff_eq] at hmt
          exact ⟨hmt.1.1, hmt.1.2, hmt.2⟩
        obtain ⟨rfl, rfl, rfl⟩ := h3
        have hzero : w.risks.countP (matchesTriple a t v) = 0 :=
          List.countP_eq_zero.2 (fun r hr => by
            simpa using List.find?_eq_none.1 hfind r hr)
        rw [hzero]
        simp [List.countP_cons, hmt]
      · have hone : List.countP (matchesTriple a' t' v') [rec] = 0 := by
          simp [List.countP_cons, hmt]
        rw [hone, Nat.add_zero]
        exact hcnt a' t' v'

/-- C4: on a well-formed store, `createOrUpdateRisk` is idempotent given
unchanged underlying data: whenever a call stored a record, a second call
for the same triple succeeds again (the same values re-validate), returns a
record with identical `valorRiesgo` and `nivelRiesgo`, and stores no new
record; after either call every triple still has at most one stored
record — the operation never creates a second record for a triple. -/
theorem createOrUpdateRisk_idempotent_spec (w : World) (a t : ℕ)
    (v : Option ℕ) (w1 : World) (r1 : RiskRecord)
    (hinv : WorldInv w)
    (h1 : createOrUpdateRisk w a t v = .ok (w1, r1)) :
    (∀ a' t' v', tripleCount w1.risks a' t' v' ≤ 1) ∧
    ∃ w2 r2,
      createOrUpdateRisk w1 a t v = .ok (w2, r2) ∧
      r2.valorRiesgo = r1.valorRiesgo ∧ r2.nivelRiesgo = r1.nivelRiesgo ∧
      w2.risks.length = w1.risks.length ∧
      (∀ a' t' v', tripleCount w2.risks a' t' v' ≤ 1) := by
  have hinv1 : WorldInv w1 := createOrUpdateRisk_preserves_inv hinv h1
  obtain ⟨asset, c, ha, hc, hcal1, hvr1, hnl1, hpr1, hi1, hf1, hvig1, hval1,
    hassets1, hthreats1, hvulns1, hnow1, hdisj1⟩ := createOrUpdateRisk_cases h1
  obtain ⟨hmem1, hmt1⟩ := createOrUpdateRisk_rec_mem h1
  have hc2 : calculateRisk w1 a t v = .ok c := by
    rw [calculateRisk_congr a t v hassets1 hthreats1 hvulns1 hnow1, hc]
  have ha2 : w1.assets.lookup a = some asset := by rw [hassets1, ha]
  obtain ⟨w2, r2, h2⟩ := createOrUpdateRisk_ok_of ha2 hc2 hval1
  obtain ⟨asset2, c2, ha2', hc2', hcal2, hvr2, hnl2, hpr2, hi2, hf2, hvig2,
    hval2, hassets2, hthreats2, hvulns2, hnow2, hdisj2⟩ :=
    createOrUpdateRisk_cases h2
  rw [ha2] at ha2'
  injection ha2' with heqa2
  rw [hc2] at hc2'
  injection hc2' with heqc2
  rw [← heqa2] at hvr2
  rw [← heqc2] at hvr2 hnl2
  have hlen : w2.risks.length = w1.risks.length := by
    rcases hdisj2 with ⟨er2, hfind2, -, -, -, -, hrisks2, -⟩ |
      ⟨hfind2, -, -, -, -, -, -⟩
    · rw [hrisks2, List.length_map]
    · exact absurd hmt1 (by simpa using List.find?_eq_none.1 hfind2 r1 hmem1)
  exact ⟨hinv1.2.2, w2, r2, h2, by rw [hvr2, hvr1], by rw [hnl2, hnl1], hlen,
    (createOrUpdateRisk_preserves_inv hinv1 h2).2.2⟩

/-- `exampleWorld` (empty risk store) is well-formed. -/
lemma exampleWorld_inv : WorldInv exampleWorld := by
  refine ⟨List.Pairwise.nil, ?_, ?_⟩ <;> simp [tripleCount, exampleWorld]

/-- Sanity evaluation: the first upsert on `exampleWorld` validates
(`impacto = 9 ≤ 10`) and stores exactly `exampleRisk`
(VaR `100000 * (24/5/10) * (9/10) = 43200`, level Medium from exposure
`216/5 = 43.2`). -/
lemma createOrUpdateRisk_example :
    createOrUpdateRisk exampleWorld 1 2 (some 3) =
      .ok (exampleWorld1, exampleRisk) := by
  unfold createOrUpdateRisk
  rw [calculateRisk_example_eval]
  norm_num [exampleWorld, exampleWorld1, exampleRisk, exampleAsset,
    determineRiskLevel, calculateVaR, List.lookup, riskValidates]

/-- Witness for `createOrUpdateRisk_idempotent_spec` on `exampleWorld`. -/
theorem createOrUpdateRisk_idempotent_spec_witness :
    WorldInv exampleWorld ∧
    createOrUpdateRisk exampleWorld 1 2 (some 3) =
      .ok (exampleWorld1, exampleRisk) ∧
    ((∀ a' t' v', tripleCount exampleWorld1.risks a' t' v' ≤ 1) ∧
    ∃ w2 r2,
      createOrUpdateRisk exampleWorld1 1 2 (some 3) = .ok (w2, r2) ∧
      r2.valorRiesgo = exampleRisk.valorRiesgo ∧
      r2.nivelRiesgo = exampleRisk.nivelRiesgo ∧
      w2.risks.length = exampleWorld1.risks.length ∧
      (∀ a' t' v', tripleCount w2.risks a' t' v' ≤ 1)) :=
  ⟨exampleWorld_inv, createOrUpdateRisk_example,
    createOrUpdateRisk_idempotent_spec exampleWorld 1 2 (some 3) exampleWorld1
      exampleRisk exampleWorld_inv createOrUpdateRisk_example⟩

/-! ## Soft deletion -/

lemma deleteRisk_cases {w : World} {rid : ℕ} {w' : World}
    (h : deleteRisk w rid = .ok w') :
    w'.assets = w.assets ∧ w'.threats = w.threats ∧ w'.vulns = w.vulns ∧
    w'.now = w.now ∧ w'.nextRiskId = w.nextRiskId ∧
    w'.risks = w.risks.map
      (fun r => if r.id == rid then { r with vigente := false } else r) := by
  unfold deleteRisk at h
  cases hfind : w.risks.find? (fun r => r.id == rid) with
  | none => rw [hfind] at h; exact absurd h (by simp)
  | some r =>
    rw [hfind] at h
    simp only [Except.ok.injEq] at h
    subst h
    exact ⟨rfl, rfl, rfl, rfl, rfl, rfl⟩

lemma deleteRisk_ok_of {w : World} {r0 : RiskRecord} (hr0 : r0 ∈ w.risks) :
    ∃ w', deleteRisk w r0.id = .ok w' := by
  unfold deleteRisk
  cases hfind : w.risks.find? (fun r => r.id == r0.id) with
  | none =>
    have hcontr := List.find?_eq_none.1 hfind r0 hr0
    simp at hcontr
  | some r => exact ⟨_, rfl⟩

lemma count_le_one_unique {α : Type} {l : List α} {p : α → Bool}
    (h : l.countP p ≤ 1) {r s : α} (hr : r ∈ l) (hpr : p r)
    (hs : s ∈ l) (hps : p s) : r = s := by
  induction l with
  | nil => cases hr
  | cons x xs ih =>
    rw [List.countP_cons] at h
    rcases List.mem_cons.1 hr with rfl | hr'
    · rcases List.mem_cons.1 hs with rfl | hs'
      · rfl
      · rw [if_pos hpr] at h
        have hz : xs.countP p = 0 := by omega
        exact absurd hps (by simpa using List.countP_eq_zero.1 hz s hs')
    · rcases List.mem_cons.1 hs with rfl | hs'
      · rw [if_pos hps] at h
        have hz : xs.countP p = 0 := by omega
        exact absurd hpr (by simpa using List.countP_eq_zero.1 hz r hr')
      · exact ih (by omega) hr' hs'

/-- Soft deletion only flips `vigente`: triples, ids and counts are
untouched, so the invariant survives. -/
lemma deleteRisk_preserves_inv {w : World} {rid : ℕ} {w' : World}
    (hinv : WorldInv w) (h : deleteRisk w rid = .ok w') : WorldInv w' := by
  obtain ⟨hp, hb, hcnt⟩ := hinv
  obtain ⟨-, -, -, -, hnext, hrisks⟩ := deleteRisk_cases h
  have hids : ∀ r : RiskRecord,
      (if r.id == rid then { r with vigente := false } else r).id = r.id := by
    intro r
    by_cases hcase : r.id == rid <;> simp [hcase]
  refine ⟨?_, ?_, ?_⟩
  · rw [hrisks, List.pairwise_map]
    exact hp.imp (fun {x y} hne => by rw [hids x, hids y]; exact hne)
  · intro r hr
    rw [hrisks] at hr
    obtain ⟨x, hx, rfl⟩ := List.mem_map.1 hr
    rw [hnext, hids x]
    exact hb x hx
  · intro a' t' v'
    unfold tripleCount
    rw [hrisks, List.countP_map]
    have hcong : ∀ r ∈ w.risks,
        (matchesTriple a' t' v' ∘
          fun r => if r.id == rid then { r with vigente := false } else r) r =
          matchesTriple a' t' v' r := by
      intro r hr
      simp only [Function.comp_apply]
      by_cases hcase : r.id == rid <;> simp [hcase, matchesTriple]
    rw [countP_congr_of_mem hcong]
    exact hcnt a' t' v'

lemma vigente_of_mem_sorted_active {wq : World} {r : RiskRecord}
    (h : r ∈ sortByValorRiesgo (wq.risks.filter (fun r => r.vigente))) :
    r.vigente = true := by
  unfold sortByValorRiesgo at h
  exact List.of_mem_filter (List.mem_mergeSort.1 h)

/-- C8: `deleteRisk` soft-deletes: the record stays stored (the store keeps
its length and a record with the same id remains, now with
`vigente = false`), and inactive records never appear in the output of
`getRiskMatrix` or `getTopRisks`. -/
theorem deleteRisk_soft_delete_spec (w : World) (r0 : RiskRecord)
    (hr0 : r0 ∈ w.risks) :
    ∃ w', deleteRisk w r0.id = .ok w' ∧
      w'.risks.length = w.risks.length ∧
      (∃ r', r' ∈ w'.risks ∧ r'.id = r0.id ∧ r'.vigente = false) ∧
      (∀ (wq : World) (r : RiskRecord) (limit : ℕ),
        (r ∈ (getRiskMatrix wq).1.criticos ∨ r ∈ (getRiskMatrix wq).1.altos ∨
         r ∈ (getRiskMatrix wq).1.medios ∨ r ∈ (getRiskMatrix wq).1.bajos ∨
         r ∈ (getRiskMatrix wq).1.muyBajos ∨ r ∈ getTopRisks wq limit) →
        r.vigente = true) := by
  obtain ⟨w', hdel⟩ := deleteRisk_ok_of hr0
  obtain ⟨-, -, -, -, -, hrisks⟩ := deleteRisk_cases hdel
  refine ⟨w', hdel, by rw [hrisks, List.length_map], ?_, ?_⟩
  · refine ⟨{ r0 with vigente := false }, ?_, rfl, rfl⟩
    rw [hrisks]
    exact List.mem_map.2 ⟨r0, hr0, by simp⟩
  · intro wq r limit hmem
    rcases hmem with h | h | h | h | h | h
    · exact vigente_of_mem_sorted_active (List.mem_of_mem_filter h)
    · exact vigente_of_mem_sorted_active (List.mem_of_mem_filter h)
    · exact vigente_of_mem_sorted_active (List.mem_of_mem_filter h)
    · exact vigente_of_mem_sorted_active (List.mem_of_mem_filter h)
    · exact vigente_of_mem_sorted_active (List.mem_of_mem_filter h)
    · exact vigente_of_mem_sorted_active (List.mem_of_mem_take h)

/-- Witness for `deleteRisk_soft_delete_spec` on `exampleWorld1`. -/
theorem deleteRisk_soft_delete_spec_witness :
    exampleRisk ∈ exampleWorld1.risks ∧
    ∃ w', deleteRisk exampleWorld1 exampleRisk.id = .ok w' ∧
      w'.risks.length = exampleWorld1.risks.length ∧
      (∃ r', r' ∈ w'.risks ∧ r'.id = exampleRisk.id ∧ r'.vigente = false) ∧
      (∀ (wq : World) (r : RiskRecord) (limit : ℕ),
        (r ∈ (getRiskMatrix wq).1.criticos ∨ r ∈ (getRiskMatrix wq).1.altos ∨
         r ∈ (getRiskMatrix wq).1.medios ∨ r ∈ (getRiskMatrix wq).1.bajos ∨
         r ∈ (getRiskMatrix wq).1.muyBajos ∨ r ∈ getTopRisks wq limit) →
        r.vigente = true) :=
  ⟨by simp [exampleWorld1],
    deleteRisk_soft_delete_spec exampleWorld1 exampleRisk (by simp [exampleWorld1])⟩

/-- C10: the upsert's `findOne` does not filter on `vigente` — if the only
stored record for a triple is soft-deleted, that same record is found and
— whenever the recomputed document passes the schema validators —
overwritten in place and set `vigente = true`: the risk removed by
`deleteRisk` becomes active again, no new record appears, and the
at-most-one-record-per-triple property holds over all records, active or
not. (When validation fails the upsert throws and the record stays
soft-deleted.) -/
theorem createOrUpdateRisk_revives_soft_deleted (w : World) (r0 : RiskRecord)
    (asset : AssetDoc) (c : CalculosRiesgo) (w1 : World) (hinv : WorldInv w)
    (hr0 : r0 ∈ w.risks)
    (ha : w.assets.lookup r0.activo = some asset)
    (hc : calculateRisk w r0.activo r0.amenaza r0.vulnerabilidad = .ok c)
    (hval : riskValidates (calculateVaR asset c.probabilidadAjustada
      c.impactoCalculado) c.probabilidadAjustada c.impactoCalculado = true)
    (hdel : deleteRisk w r0.id = .ok w1) :
    ∃ w2 rec, createOrUpdateRisk w1 r0.activo r0.amenaza r0.vulnerabilidad =
        .ok (w2, rec) ∧
      rec.id = r0.id ∧ rec.vigente = true ∧
      w2.risks.length = w1.risks.length ∧
      (∀ a' t' v', tripleCount w2.risks a' t' v' ≤ 1) := by
  obtain ⟨hassets1, hthreats1, hvulns1, hnow1, hnext1, hrisks1⟩ :=
    deleteRisk_cases hdel
  have hinv1 : WorldInv w1 := deleteRisk_preserves_inv hinv hdel
  have hr0' : { r0 with vigente := false } ∈ w1.risks := by
    rw [hrisks1]
    exact List.mem_map.2 ⟨r0, hr0, by simp⟩
  have hmt0 : matchesTriple r0.activo r0.amenaza r0.vulnerabilidad
      { r0 with vigente := false } = true := by
    simp [matchesTriple]
  have hc1 : calculateRisk w1 r0.activo r0.amenaza r0.vulnerabilidad = .ok c := by
    rw [calculateRisk_congr r0.activo r0.amenaza r0.vulnerabilidad hassets1
      hthreats1 hvulns1 hnow1, hc]
  have ha1 : w1.assets.lookup r0.activo = some asset := by rw [hassets1, ha]
  obtain ⟨w2, rec, h2⟩ := createOrUpdateRisk_ok_of ha1 hc1 hval
  obtain ⟨asset2, c2, ha2, hc2, hcal2, hvr2, hnl2, hpr2, hi2, hf2, hvig2,
    hval2, hassets2, hthreats2, hvulns2, hnow2, hdisj2⟩ :=
    createOrUpdateRisk_cases h2
  rcases hdisj2 with ⟨er, hfind2, hid2, -, -, -, hrisks2, -⟩ |
    ⟨hfind2, -, -, -, -, -, -⟩
  · have her_mem : er ∈ w1.risks := List.mem_of_find?_eq_some hfind2
    have her_p := List.find?_some hfind2
    have hcnt1 := hinv1.2.2 r0.activo r0.amenaza r0.vulnerabilidad
    unfold tripleCount at hcnt1
    have her_eq : er = { r0 with vigente := false } :=
      count_le_one_unique hcnt1 her_mem her_p hr0' hmt0
    exact ⟨w2, rec, h2, by rw [hid2, her_eq], hvig2,
      by rw [hrisks2, List.length_map],
      (createOrUpdateRisk_preserves_inv hinv1 h2).2.2⟩
  · exact absurd hmt0 (by simpa using List.find?_eq_none.1 hfind2 _ hr0')

/-- `exampleWorld1` (one stored record) is well-formed. -/
lemma exampleWorld1_inv : WorldInv exampleWorld1 := by
  refine ⟨?_, ?_, ?_⟩
  · simp [exampleWorld1]
  · intro r hr
    simp only [exampleWorld1, List.mem_singleton] at hr
    subst hr
    decide
  · intro a' t' v'
    unfold tripleCount
    rw [show exampleWorld1.risks = [exampleRisk] from rfl, List.countP_cons]
    split_ifs <;> simp

/-- Witness for `createOrUpdateRisk_revives_soft_deleted`. -/
theorem createOrUpdateRisk_revives_soft_deleted_witness :
    WorldInv exampleWorld1 ∧ exampleRisk ∈ exampleWorld1.risks ∧
    exampleWorld1.assets.lookup exampleRisk.activo = some exampleAsset ∧
    calculateRisk exampleWorld1 exampleRisk.activo exampleRisk.amenaza
      exampleRisk.vulnerabilidad = .ok ⟨54, 24/5, 9, 216/5, 1⟩ ∧
    deleteRisk exampleWorld1 exampleRisk.id = .ok exampleWorld1Deleted ∧
    ∃ w2 rec, createOrUpdateRisk exampleWorld1Deleted exampleRisk.activo
        exampleRisk.amenaza exampleRisk.vulnerabilidad = .ok (w2, rec) ∧
      rec.id = exampleRisk.id ∧ rec.vigente = true ∧
      w2.risks.length = exampleWorld1Deleted.risks.length ∧
      (∀ a' t' v', tripleCount w2.risks a' t' v' ≤ 1) :=
  have hc : calculateRisk exampleWorld1 exampleRisk.activo exampleRisk.amenaza
      exampleRisk.vulnerabilidad = .ok ⟨54, 24/5, 9, 216/5, 1⟩ := by
    rw [calculateRisk_congr exampleRisk.activo exampleRisk.amenaza
      exampleRisk.vulnerabilidad rfl rfl rfl rfl]
    exact calculateRisk_example_eval
  ⟨exampleWorld1_inv, by simp [exampleWorld1], rfl, hc, rfl,
    createOrUpdateRisk_revives_soft_deleted exampleWorld1 exampleRisk
      exampleAsset ⟨54, 24/5, 9, 216/5, 1⟩ exampleWorld1Deleted
      exampleWorld1_inv (by simp [exampleWorld1]) rfl hc exampleValidates rfl⟩

/-! ## The batch recalculation -/

lemma length_filter_not_add {α : Type} (p : α → Bool) (l : List α) :
    (l.filter (fun a => !(p a))).length + (l.filter p).length = l.length := by
  induction l with
  | nil => rfl
  | cons x xs ih => by_cases h : p x <;> simp [List.filter_cons, h] <;> omega

lemma calculateRisk_ok_lookups {w : World} {a t : ℕ} {v : Option ℕ}
    {c : CalculosRiesgo} (h : calculateRisk w a t v = .ok c) :
    (w.assets.lookup a).isSome = true ∧ (w.threats.lookup t).isSome = true := by
  unfold calculateRisk at h
  cases ha : w.assets.lookup a with
  | none => rw [ha] at h; simp at h
  | some asset =>
    cases ht : w.threats.lookup t with
    | none => rw [ha, ht] at h; simp at h
    | some threat => exact ⟨rfl, rfl⟩

lemma upsertOk_spec {w : World} {a t : ℕ} {v : Option ℕ}
    (h : upsertOk w a t v = true) :
    ∃ c asset, calculateRisk w a t v = .ok c ∧
      w.assets.lookup a = some asset ∧
      riskValidates (calculateVaR asset c.probabilidadAjustada
        c.impactoCalculado) c.probabilidadAjustada c.impactoCalculado = true := by
  unfold upsertOk at h
  cases hc : calculateRisk w a t v with
  | error e =>
    rw [hc] at h
    cases hl : w.assets.lookup a <;> rw [hl] at h <;> cases h
  | ok c =>
    rw [hc] at h
    cases hl : w.assets.lookup a with
    | none => rw [hl] at h; cases h
    | some asset => rw [hl] at h; exact ⟨c, asset, rfl, rfl, h⟩

/-- `upsertOk` reads only the reference collections and the clock. -/
lemma upsertOk_congr {w1 w2 : World} (a t : ℕ) (v : Option ℕ)
    (ha : w1.assets = w2.assets) (ht : w1.threats = w2.threats)
    (hv : w1.vulns = w2.vulns) (hn : w1.now = w2.now) :
    upsertOk w1 a t v = upsertOk w2 a t v := by
  unfold upsertOk
  rw [calculateRisk_congr a t v ha ht hv hn, ha]

/-- Every loop iteration increments exactly one of the two counters. -/
lemma recalcStep_sum (w0 : World) (acc : World × ℕ × ℕ) (r : RiskRecord) :
    (recalcStep w0 acc r).2.1 + (recalcStep w0 acc r).2.2 =
      acc.2.1 + acc.2.2 + 1 := by
  unfold recalcStep
  by_cases hcond : ((w0.assets.lookup r.activo).isNone ||
      (w0.threats.lookup r.amenaza).isNone) = true
  · rw [if_pos hcond]
    dsimp only []
    omega
  · rw [if_neg hcond]
    cases hres : createOrUpdateRisk acc.1 r.activo r.amenaza (vidAdj w0 r) with
    | ok x =>
      cases x
      dsimp only []
      omega
    | error e =>
      dsimp only []
      omega

lemma recalc_fold_sum (w0 : World) (l : List RiskRecord) :
    ∀ acc : World × ℕ × ℕ,
      (l.foldl (recalcStep w0) acc).2.1 + (l.foldl (recalcStep w0) acc).2.2 =
        acc.2.1 + acc.2.2 + l.length := by
  induction l with
  | nil => intro acc; simp
  | cons r rs ih =>
    intro acc
    rw [List.foldl_cons, ih, recalcStep_sum]
    simp only [List.length_cons]
    omega

/-- Counting lemma for the `recalculateAllRisks` loop: threading any world
that agrees with the fetch-time world `w0` on the reference collections and
the clock, and assuming every record whose asset survives re-upserts
successfully, each missing-asset record increments `errors` and every other
record increments `processed`. -/
lemma recalc_fold_counts (w0 : World) (l : List RiskRecord) (w : World)
    (p e : ℕ)
    (hw : w.assets = w0.assets ∧ w.threats = w0.threats ∧
      w.vulns = w0.vulns ∧ w.now = w0.now)
    (hok : ∀ r ∈ l, (w0.assets.lookup r.activo).isNone = false →
      upsertOk w0 r.activo r.amenaza (vidAdj w0 r) = true) :
    (l.foldl (recalcStep w0) (w, p, e)).2 =
      (p + (l.filter (fun r => !(w0.assets.lookup r.activo).isNone)).length,
       e + (l.filter (fun r => (w0.assets.lookup r.activo).isNone)).length) := by
  induction l generalizing w p e with
  | nil => simp
  | cons r rs ih =>
    obtain ⟨hwa, hwt, hwv, hwn⟩ := hw
    rw [List.foldl_cons]
    cases hx : w0.assets.lookup r.activo with
    | none =>
      have hstep : recalcStep w0 (w, p, e) r = (w, p, e + 1) := by
        unfold recalcStep
        rw [if_pos (by rw [hx]; rfl)]
      rw [hstep, ih w p (e + 1) ⟨hwa, hwt, hwv, hwn⟩
        (fun r hr => hok r (by simp [hr]))]
      rw [List.filter_cons_of_neg (by simp [hx]),
        List.filter_cons_of_pos (by simp [hx])]
      simp only [List.length_cons, Prod.mk.injEq]
      exact ⟨trivial, by omega⟩
    | some asset0 =>
      have hok_r : upsertOk w0 r.activo r.amenaza (vidAdj w0 r) = true :=
        hok r (by simp) (by rw [hx]; rfl)
      obtain ⟨c, asset, hcw0, haw0, hvalw0⟩ := upsertOk_spec hok_r
      obtain ⟨-, hts⟩ := calculateRisk_ok_lookups hcw0
      have htnone : (w0.threats.lookup r.amenaza).isNone = false := by
        cases hy : w0.threats.lookup r.amenaza
        · rw [hy] at hts; cases hts
        · rfl
      have hcw : calculateRisk w r.activo r.amenaza (vidAdj w0 r) = .ok c := by
        rw [calculateRisk_congr r.activo r.amenaza (vidAdj w0 r) hwa hwt hwv hwn]
        exact hcw0
      have haw : w.assets.lookup r.activo = some asset := by
        rw [hwa]
        exact haw0
      obtain ⟨w2, rec, hok2⟩ := createOrUpdateRisk_ok_of haw hcw hvalw0
      have hstep : recalcStep w0 (w, p, e) r = (w2, p + 1, e) := by
        unfold recalcStep
        rw [if_neg (by rw [hx, htnone]; simp)]
        simp only [hok2]
      obtain ⟨-, -, -, -, -, -, -, -, -, -, -, -, hassets2, hthreats2, hvulns2,
        hnow2, -⟩ := createOrUpdateRisk_cases hok2
      rw [hstep, ih w2 (p + 1) e
        ⟨hassets2.trans hwa, hthreats2.trans hwt, hvulns2.trans hwv,
          hnow2.trans hwn⟩
        (fun r hr => hok r (by simp [hr]))]
      rw [List.filter_cons_of_pos (by simp [hx]),
        List.filter_cons_of_neg (by simp [hx])]
      simp only [List.length_cons, Prod.mk.injEq]
      refine ⟨?_, ?_⟩ <;> first | omega | trivial

lemma recalcStep_ref_missing (w0 : World) (acc : World × ℕ × ℕ)
    (r : RiskRecord)
    (hpre : ((w0.assets.lookup r.activo).isNone ||
      (w0.threats.lookup r.amenaza).isNone) = true) :
    recalcStep w0 acc r = (acc.1, acc.2.1, acc.2.2 + 1) := by
  unfold recalcStep
  rw [if_pos hpre]

lemma recalcStep_err (w0 : World) (acc : World × ℕ × ℕ) (r : RiskRecord)
    (hpre : ((w0.assets.lookup r.activo).isNone ||
      (w0.threats.lookup r.amenaza).isNone) = false)
    (herr : ∃ e, createOrUpdateRisk acc.1 r.activo r.amenaza (vidAdj w0 r) =
      .error e) :
    recalcStep w0 acc r = (acc.1, acc.2.1, acc.2.2 + 1) := by
  obtain ⟨e, herr⟩ := herr
  unfold recalcStep
  rw [if_neg (by rw [hpre]; simp), herr]

/-- C5 (amended): `recalculateAllRisks` visits every currently-active
record, re-invokes the upsert on its triple, counts (instead of
propagating) every per-record failure — deleted references and schema
`ValidationError`s alike — and always returns `(processed, errors)` with
`processed + errors = N`. When every record whose asset survives
re-upserts successfully, errors are exactly the missing-asset records:
with `N` active records of which `M` reference missing assets, the result
is `processed = N - M` and `errors = M`. -/
theorem recalculateAllRisks_spec (w : World)
    (hok : ∀ r ∈ w.risks, r.vigente = true →
      (w.assets.lookup r.activo).isNone = false →
      upsertOk w r.activo r.amenaza (vidAdj w r) = true) :
    (recalculateAllRisks w).2.1 + (recalculateAllRisks w).2.2 =
      (w.risks.filter (fun r => r.vigente)).length ∧
    (recalculateAllRisks w).2.1 =
      (w.risks.filter (fun r => r.vigente)).length -
        ((w.risks.filter (fun r => r.vigente)).filter
          (fun r => (w.assets.lookup r.activo).isNone)).length ∧
    (recalculateAllRisks w).2.2 =
      ((w.risks.filter (fun r => r.vigente)).filter
        (fun r => (w.assets.lookup r.activo).isNone)).length := by
  have h := recalc_fold_counts w (w.risks.filter (fun r => r.vigente)) w 0 0
    ⟨rfl, rfl, rfl, rfl⟩
    (fun r hr => hok r (List.mem_of_mem_filter hr) (List.of_mem_filter hr))
  have hsum := length_filter_not_add
    (fun r => (w.assets.lookup r.activo).isNone)
    (w.risks.filter (fun r => r.vigente))
  unfold recalculateAllRisks
  rw [h]
  simp only [Nat.zero_add]
  exact ⟨by omega, by omega, trivial⟩

/-- Witness for `recalculateAllRisks_spec` on `exampleWorldBatch`
(`N = 2`, `M = 1`, the surviving record re-validates). -/
theorem recalculateAllRisks_spec_witness :
    (∀ r ∈ exampleWorldBatch.risks, r.vigente = true →
      (exampleWorldBatch.assets.lookup r.activo).isNone = false →
      upsertOk exampleWorldBatch r.activo r.amenaza
        (vidAdj exampleWorldBatch r) = true) ∧
    ((recalculateAllRisks exampleWorldBatch).2.1 +
        (recalculateAllRisks exampleWorldBatch).2.2 =
      (exampleWorldBatch.risks.filter (fun r => r.vigente)).length ∧
    (recalculateAllRisks exampleWorldBatch).2.1 =
      (exampleWorldBatch.risks.filter (fun r => r.vigente)).length -
        ((exampleWorldBatch.risks.filter (fun r => r.vigente)).filter
          (fun r => (exampleWorldBatch.assets.lookup r.activo).isNone)).length ∧
    (recalculateAllRisks exampleWorldBatch).2.2 =
      ((exampleWorldBatch.risks.filter (fun r => r.vigente)).filter
        (fun r => (exampleWorldBatch.assets.lookup r.activo).isNone)).length) :=
  have hcalcBatch : calculateRisk exampleWorldBatch 1 2 (some 3) =
      .ok ⟨54, 24/5, 9, 216/5, 1⟩ := by
    rw [calculateRisk_congr 1 2 (some 3) rfl rfl rfl rfl]
    exact calculateRisk_example_eval
  have hok : ∀ r ∈ exampleWorldBatch.risks, r.vigente = true →
      (exampleWorldBatch.assets.lookup r.activo).isNone = false →
      upsertOk exampleWorldBatch r.activo r.amenaza
        (vidAdj exampleWorldBatch r) = true := by
    intro r hr hvig hasset
    have hr' : r = exampleRisk ∨ r = exampleRiskB := by
      simpa [exampleWorldBatch] using hr
    rcases hr' with rfl | rfl
    · show upsertOk exampleWorldBatch 1 2 (some 3) = true
      unfold upsertOk
      rw [hcalcBatch,
        show exampleWorldBatch.assets.lookup 1 = some exampleAsset from rfl]
      dsimp only []
      exact exampleValidates
    · exact absurd hasset (by decide)
  ⟨hok, recalculateAllRisks_spec exampleWorldBatch hok⟩

/-- C5 (counterexample): the claim's count equality fails as stated — on a
world with `N = 2` active records of which `M = 1` references a missing
asset, the surviving record's recomputation violates the schema
(`impacto = 18 > 10`), so its upsert throws `ValidationError` and is also
counted: the batch returns `(0, 2)`, not `(N - M, M) = (1, 1)` — while
still not throwing. -/
theorem recalculateAllRisks_counterexample :
    (exampleWorldBatchBad.risks.filter (fun r => r.vigente)).length = 2 ∧
    ((exampleWorldBatchBad.risks.filter (fun r => r.vigente)).filter
      (fun r => (exampleWorldBatchBad.assets.lookup r.activo).isNone)).length
      = 1 ∧
    (recalculateAllRisks exampleWorldBatchBad).2 = (0, 2) ∧
    (recalculateAllRisks exampleWorldBatchBad).2 ≠ (2 - 1, 1) := by
  have hbig2 : calculateRisk exampleWorldBatchBad 1 2 none =
      .ok ⟨54, 3, 18, 54, 1⟩ := by
    rw [calculateRisk_congr 1 2 none rfl rfl rfl rfl]
    exact calculateRisk_big_eval
  have hup : createOrUpdateRisk exampleWorldBatchBad 1 2 none =
      .error .validation :=
    createOrUpdateRisk_validation_error rfl hbig2 bigValidates_false
  have h1 : recalcStep exampleWorldBatchBad (exampleWorldBatchBad, 0, 0)
      { exampleRisk with vulnerabilidad := none } =
      (exampleWorldBatchBad, 0, 1) :=
    recalcStep_err exampleWorldBatchBad (exampleWorldBatchBad, 0, 0)
      { exampleRisk with vulnerabilidad := none } (by decide)
      ⟨.validation, hup⟩
  have h2 : recalcStep exampleWorldBatchBad (exampleWorldBatchBad, 0, 1)
      exampleRiskB = (exampleWorldBatchBad, 0, 2) :=
    recalcStep_ref_missing exampleWorldBatchBad (exampleWorldBatchBad, 0, 1)
      exampleRiskB (by decide)
  have heval : (recalculateAllRisks exampleWorldBatchBad).2 = (0, 2) := by
    unfold recalculateAllRisks
    rw [show exampleWorldBatchBad.risks.filter (fun r => r.vigente) =
      [{ exampleRisk with vulnerabilidad := none }, exampleRiskB] from rfl,
      List.foldl_cons, h1, List.foldl_cons, h2, List.foldl_nil]
  exact ⟨by decide, by decide, heval, by rw [heval]; decide⟩

/-- C10 (counterexample): the revival promised by the claim fails as
stated — the `findOne` does find the soft-deleted record for the triple
`(1, 2, –)`, but the recomputed document for the too-valuable asset
violates the schema (`impacto = 18 > 10`), so the update `save()` throws
`ValidationError` and the record stays soft-deleted instead of becoming
active again. -/
theorem createOrUpdateRisk_revival_counterexample :
    exampleWorldBigDel.risks = [exampleRiskBigDel] ∧
    exampleRiskBigDel.vigente = false ∧
    createOrUpdateRisk exampleWorldBigDel exampleRiskBigDel.activo
      exampleRiskBigDel.amenaza exampleRiskBigDel.vulnerabilidad =
      .error .validation := by
  refine ⟨rfl, rfl, ?_⟩
  have hcalc : calculateRisk exampleWorldBigDel 1 2 none =
      .ok ⟨54, 3, 18, 54, 1⟩ := by
    rw [calculateRisk_congr 1 2 none rfl rfl rfl rfl]
    exact calculateRisk_big_eval
  exact createOrUpdateRisk_validation_error rfl hcalc bigValidates_false

end RiskService

end SeguridadBack
